import Mathlib

set_option maxHeartbeats 1000000

/-! Verification development for the control-plane core of the team
repository: budget ledger and API (src/orchestrator/budget_controller.py,
src/api/new_endpoints.py), authentication and RBAC (src/api/security.py),
circuit breaker (src/common/circuit_breaker.py), safe publisher and DLQ
(src/messaging/jetstream_setup.py) and the migration runner
(src/scripts/migrate.py), shallowly embedded as executable Lean
definitions. -/

namespace ControlPlane

/-- Association-list lookup, modelling a string-keyed dictionary or KV
store: first binding for the key wins. -/
def alistGet {α : Type} (m : List (String × α)) (k : String) : Option α :=
  (m.find? (fun p => p.1 == k)).map (fun p => p.2)

/-- Association-list update modelling Python dict assignment: replace the
binding in place if the key is present, otherwise append it. -/
def alistSet {α : Type} (m : List (String × α)) (k : String) (v : α) :
    List (String × α) :=
  if m.any (fun p => p.1 == k) then
    m.map (fun p => if p.1 == k then (k, v) else p)
  else
    m ++ [(k, v)]

/-- Association-list deletion, modelling a KV DELETE. -/
def alistDel {α : Type} (m : List (String × α)) (k : String) :
    List (String × α) :=
  m.filter (fun p => !(p.1 == k))

-- ===========================================================================
-- Budget ledger (src/orchestrator/budget_controller.py)
-- ===========================================================================

/-- Row of the budget_limits table (BUDGET_SCHEMA in budget_controller.py):
total_limit, current_usage and reserved are BIGINT columns, modelled as
unbounded integers. -/
structure BudgetLimit where
  total_limit : Int
  current_usage : Int
  reserved : Int
deriving Repr, DecidableEq

/-- The computed column (total_limit - current_usage - reserved) AS
available, from the SELECT in IdempotentBudgetController._get_budget. -/
def BudgetLimit.available (b : BudgetLimit) : Int :=
  b.total_limit - b.current_usage - b.reserved

/-- IdempotentBudgetController._reserve_tokens, ledger part: the
conditional UPDATE sets reserved = reserved + amount only WHERE
(total_limit - current_usage - reserved) >= amount; the Bool reports
whether a row was updated. -/
def reserve_tokens (b : BudgetLimit) (amount : Int) : BudgetLimit × Bool :=
  if b.total_limit - b.current_usage - b.reserved ≥ amount then
    ({ b with reserved := b.reserved + amount }, true)
  else
    (b, false)

/-- IdempotentBudgetController.commit_usage, ledger part: the UPDATE sets
current_usage = current_usage + actual_tokens and
reserved = reserved - actual_tokens, with no WHERE guard beyond the key. -/
def commit_usage (b : BudgetLimit) (actual_tokens : Int) : BudgetLimit :=
  { b with current_usage := b.current_usage + actual_tokens,
           reserved := b.reserved - actual_tokens }

/-- IdempotentBudgetController.release_reservation, ledger part: the
UPDATE sets reserved = reserved - amount unconditionally. -/
def release_reservation (b : BudgetLimit) (amount : Int) : BudgetLimit :=
  { b with reserved := b.reserved - amount }

/-- One ledger operation of the controller; amounts are token counts and
hence non-negative. -/
inductive LedgerOp where
  | reserve (amount : Nat)
  | commit (actual : Nat)
  | release (amount : Nat)
deriving Repr, DecidableEq

/-- Apply one ledger operation to a budget_limits row. -/
def applyOp (b : BudgetLimit) (op : LedgerOp) : BudgetLimit :=
  match op with
  | .reserve a => (reserve_tokens b (a : Int)).1
  | .commit a => commit_usage b (a : Int)
  | .release a => release_reservation b (a : Int)

/-- Apply a sequence of ledger operations from left to right. -/
def applyOps (b : BudgetLimit) (ops : List LedgerOp) : BudgetLimit :=
  ops.foldl applyOp b

/-- Claim C1, counterexample: from the freshly created default row with
limit 100, reserving 50 and then committing an actual usage of 60 (the
commit UPDATE subtracts the actual amount from reserved with no guard)
drives reserved to -10, so the claimed invariant reserved >= 0 is false. -/
theorem ledger_reserved_goes_negative :
    (applyOps { total_limit := 100, current_usage := 0, reserved := 0 }
        [LedgerOp.reserve 50, LedgerOp.commit 60]) =
      { total_limit := 100, current_usage := 60, reserved := -10 } ∧
    ¬ (0 ≤ (applyOps { total_limit := 100, current_usage := 0, reserved := 0 }
        [LedgerOp.reserve 50, LedgerOp.commit 60]).reserved) := by
  decide

/-- Claim C1, amended: for every sequence of reserve, commit and release
operations with non-negative amounts, the ledger keeps
current_usage + reserved ≤ total_limit and current_usage ≥ 0 (reserve is
guarded by the conditional UPDATE, commit moves the same amount between
the two columns, release only decreases the sum); but reserved ≥ 0 is not
maintained, since commit and release subtract unconditionally. -/
theorem ledger_sum_invariant (b : BudgetLimit) (ops : List LedgerOp)
    (hsum : b.current_usage + b.reserved ≤ b.total_limit)
    (husage : 0 ≤ b.current_usage) :
    (applyOps b ops).current_usage + (applyOps b ops).reserved ≤
        (applyOps b ops).total_limit ∧
    0 ≤ (applyOps b ops).current_usage := by
  induction ops generalizing b with
  | nil => exact ⟨hsum, husage⟩
  | cons op rest ih =>
    have hstep :
        (applyOp b op).current_usage + (applyOp b op).reserved ≤
            (applyOp b op).total_limit ∧
        0 ≤ (applyOp b op).current_usage := by
      cases op with
      | reserve a =>
        simp only [applyOp, reserve_tokens]
        split
        · simp only
          constructor <;> omega
        · exact ⟨hsum, husage⟩
      | commit a =>
        simp only [applyOp, commit_usage]
        constructor <;> omega
      | release a =>
        simp only [applyOp, release_reservation]
        constructor <;> omega
    exact ih (applyOp b op) hstep.1 hstep.2

/-- Witness for the amended C1 theorem at a concrete row and sequence. -/
theorem ledger_sum_invariant_witness :
    (applyOps { total_limit := 100, current_usage := 0, reserved := 0 }
        [LedgerOp.reserve 50, LedgerOp.commit 60,
         LedgerOp.release 5]).current_usage +
      (applyOps { total_limit := 100, current_usage := 0, reserved := 0 }
        [LedgerOp.reserve 50, LedgerOp.commit 60,
         LedgerOp.release 5]).reserved ≤
      (applyOps { total_limit := 100, current_usage := 0, reserved := 0 }
        [LedgerOp.reserve 50, LedgerOp.commit 60,
         LedgerOp.release 5]).total_limit ∧
    0 ≤ (applyOps { total_limit := 100, current_usage := 0, reserved := 0 }
        [LedgerOp.reserve 50, LedgerOp.commit 60,
         LedgerOp.release 5]).current_usage :=
  ledger_sum_invariant
    { total_limit := 100, current_usage := 0, reserved := 0 }
    [LedgerOp.reserve 50, LedgerOp.commit 60, LedgerOp.release 5]
    (by decide) (by decide)

-- ===========================================================================
-- Budget API endpoints (src/api/new_endpoints.py): Redis-backed state
-- ===========================================================================

/-- State behind the /budget endpoints: total_limit from the budget_limits
row (default 100000 when absent), the used counter at key
budget:tenant:project, and the live reservations (id, tokens) reachable
from the set reservations:tenant:project. -/
structure ApiBudgetState where
  total_limit : Int
  used : Int
  reservations : List (String × Int)
deriving Repr, DecidableEq

/-- Reserved-token total as the endpoints compute it: sum of the token
counts of the live reservation entries. -/
def derivedReserved (s : ApiBudgetState) : Int :=
  (s.reservations.map (fun r => r.2)).sum

/-- Result of the /budget/commit endpoint. -/
inductive CommitResult where
  | committed (tokens : Int)
  | notFound
deriving Repr, DecidableEq

/-- budget_commit endpoint: 404 when the reservation key is gone,
otherwise INCRBY the used counter by actual_tokens and delete the
reservation entry and its set membership. -/
def budget_commit (s : ApiBudgetState) (reservation_id : String)
    (actual_tokens : Int) : ApiBudgetState × CommitResult :=
  if s.reservations.any (fun r => r.1 == reservation_id) then
    ({ s with used := s.used + actual_tokens,
              reservations :=
                s.reservations.filter (fun r => !(r.1 == reservation_id)) },
     .committed actual_tokens)
  else
    (s, .notFound)

/-- Claim C3, counterexample: with total_limit 100, used 0 and one held
reservation of 50 tokens, committing actual_tokens = 200 succeeds, pushes
used to 200 > 100 and deletes the reservation; there is no budget_overflow
failure and the reservation does not stay Held. -/
theorem api_commit_no_overflow_check :
    budget_commit { total_limit := 100, used := 0,
                    reservations := [("r1", 50)] } "r1" 200 =
      ({ total_limit := 100, used := 200, reservations := [] },
       CommitResult.committed 200) ∧
    ¬ ((budget_commit { total_limit := 100, used := 0,
                        reservations := [("r1", 50)] } "r1" 200).1.used ≤
        (budget_commit { total_limit := 100, used := 0,
                         reservations := [("r1", 50)] } "r1" 200).1.total_limit) := by
  decide

theorem api_commit_filter_keeps (l : List (String × Int)) (rid : String)
    (h : ∀ q ∈ l, (q.1 == rid) = false) :
    l.filter (fun r => !(r.1 == rid)) = l := by
  induction l with
  | nil => rfl
  | cons p l' ih =>
    have hp := h p (List.mem_cons_self p l')
    simp only [List.filter_cons, hp, Bool.not_false, if_pos]
    rw [ih (fun q hq => h q (List.mem_cons_of_mem p hq))]

theorem api_commit_filter_sum (l : List (String × Int)) (rid : String)
    (amt : Int) (hmem : (rid, amt) ∈ l) (hnd : (l.map Prod.fst).Nodup) :
    ((l.filter (fun r => !(r.1 == rid))).map (fun r => r.2)).sum =
      (l.map (fun r => r.2)).sum - amt := by
  induction l with
  | nil => cases hmem
  | cons p l' ih =>
    simp only [List.map_cons, List.nodup_cons] at hnd
    rcases List.mem_cons.mp hmem with heq | hmem'
    · have hkeep : l'.filter (fun r => !(r.1 == rid)) = l' := by
        apply api_commit_filter_keeps
        intro q hq
        cases hb : (q.1 == rid) with
        | false => rfl
        | true =>
          exfalso
          have hq1 : q.1 ∈ l'.map Prod.fst := List.mem_map_of_mem Prod.fst hq
          rw [eq_of_beq hb] at hq1
          rw [← heq] at hnd
          exact hnd.1 (by simpa using hq1)
      rw [← heq]
      simp [List.filter_cons, hkeep]
    · have hp : (p.1 == rid) = false := by
        cases hb : (p.1 == rid) with
        | false => rfl
        | true =>
          exfalso
          have hq1 : rid ∈ l'.map Prod.fst := by
            have := List.mem_map_of_mem Prod.fst hmem'
            simpa using this
          rw [eq_of_beq hb] at hnd
          exact hnd.1 hq1
      simp only [List.filter_cons, hp, Bool.not_false, if_pos, List.map_cons,
        List.sum_cons]
      rw [ih hmem' hnd.2]
      ring

theorem budget_commit_found (s : ApiBudgetState) (rid : String)
    (actual : Int)
    (hany : s.reservations.any (fun r => r.1 == rid) = true) :
    budget_commit s rid actual =
      ({ s with used := s.used + actual,
                reservations :=
                  s.reservations.filter (fun r => !(r.1 == rid)) },
       .committed actual) := by
  simp [budget_commit, hany]

/-- Claim C3, amended: when the reservation exists (reservation ids are
unique), commit returns committed, increases used by exactly
actual_tokens and removes the reservation, so the derived reserved total
drops by exactly the reserved amount of the reservation; when the
reservation entry is absent the endpoint returns notFound and changes
nothing. The code has no budget_overflow guard: the same equations hold
even when used + actual_tokens exceeds total_limit, as the counterexample
shows. -/
theorem api_commit_conservation (s : ApiBudgetState) (rid : String)
    (amt actual : Int) :
    ((rid, amt) ∈ s.reservations → (s.reservations.map Prod.fst).Nodup →
      (budget_commit s rid actual).2 = .committed actual ∧
      (budget_commit s rid actual).1.used = s.used + actual ∧
      derivedReserved (budget_commit s rid actual).1 =
        derivedReserved s - amt ∧
      (budget_commit s rid actual).1.reservations.any
        (fun r => r.1 == rid) = false) ∧
    (s.reservations.any (fun r => r.1 == rid) = false →
      budget_commit s rid actual = (s, .notFound)) := by
  constructor
  · intro hmem hnd
    have hany : s.reservations.any (fun r => r.1 == rid) = true :=
      List.any_eq_true.mpr ⟨(rid, amt), hmem, beq_self_eq_true rid⟩
    rw [budget_commit_found s rid actual hany]
    refine ⟨rfl, rfl, ?_, ?_⟩
    · simp only [derivedReserved]
      exact api_commit_filter_sum s.reservations rid amt hmem hnd
    · rw [List.any_eq_false]
      intro q hq
      have := (List.mem_filter.mp hq).2
      simpa using this
  · intro hany
    simp [budget_commit, hany]

/-- Concrete budget-API state with one 50-token reservation held. -/
def apiStateHeld : ApiBudgetState := { total_limit := 100, used := 0, reservations := [("r1", 50)] }

/-- Concrete budget-API state holding only an unrelated reservation. -/
def apiStateOther : ApiBudgetState := { total_limit := 100, used := 7, reservations := [("r2", 9)] }

/-- Witness for the amended C3 theorem: a successful commit on a held
50-token reservation with actual 30, and a notFound on a missing id. -/
theorem api_commit_conservation_witness :
    ((budget_commit apiStateHeld "r1" 30).2 = CommitResult.committed 30 ∧
      (budget_commit apiStateHeld "r1" 30).1.used = apiStateHeld.used + 30 ∧
      derivedReserved (budget_commit apiStateHeld "r1" 30).1 =
        derivedReserved apiStateHeld - 50 ∧
      (budget_commit apiStateHeld "r1" 30).1.reservations.any
          (fun r => r.1 == "r1") = false) ∧
    budget_commit apiStateOther "r1" 30 = (apiStateOther, .notFound) :=
  ⟨(api_commit_conservation apiStateHeld "r1" 50 30).1 (by decide) (by decide),
   (api_commit_conservation apiStateOther "r1" 50 30).2 (by decide)⟩

-- ===========================================================================
-- Idempotent request protocol (IdempotentBudgetController.request_tokens)
-- ===========================================================================

/-- BudgetDecision dataclass of budget_controller.py. -/
structure BudgetDecision where
  approved : Bool
  reason : String
  allocated_tokens : Int
  request_id : Option String
  timestamp : Option String
deriving Repr, DecidableEq

/-- Row of the budget_transactions table. -/
structure BudgetTx where
  tenant_id : String
  project_id : String
  task_id : String
  request_id : String
  amount : Int
  type : String
  purpose : String
deriving Repr, DecidableEq

/-- Controller-visible state: the Redis idempotency keys currently set
(locks), the cached decision payloads (results, keyed by the
request-key with suffix colon-result), the budget_limits row and the
budget_transactions rows for one tenant and project. -/
structure CtrlState where
  locks : List String
  results : List (String × BudgetDecision)
  ledger : BudgetLimit
  txs : List BudgetTx
deriving Repr, DecidableEq

/-- The idempotency key budget:req:tenant:task:request_id. -/
def mkReqKey (tenant task rid : String) : String :=
  "budget:req:" ++ tenant ++ ":" ++ task ++ ":" ++ rid

/-- IdempotentBudgetController._process_budget_request: check available
against the estimate, then perform the guarded reserve UPDATE and log a
reserve transaction row on success. The 10-second read cache of
_get_budget is elided: the budget read is the current ledger row. -/
def process_budget_request (s : CtrlState) (purpose : String)
    (estimated : Int) (tenant project task rid now : String) :
    CtrlState × BudgetDecision :=
  let b := s.ledger
  if b.available < estimated then
    (s, { approved := false,
          reason := "insufficient_budget: " ++ toString b.available ++
            " < " ++ toString estimated,
          allocated_tokens := 0, request_id := some rid,
          timestamp := some now })
  else
    let rb := reserve_tokens b estimated
    if rb.2 then
      ({ s with ledger := rb.1,
                txs := s.txs ++
                  [{ tenant_id := tenant, project_id := project,
                     task_id := task, request_id := rid,
                     amount := estimated, type := "reserve",
                     purpose := purpose }] },
       { approved := true, reason := "approved",
         allocated_tokens := estimated, request_id := some rid,
         timestamp := some now })
    else
      (s, { approved := false, reason := "reservation_failed",
            allocated_tokens := 0, request_id := some rid,
            timestamp := some now })

/-- IdempotentBudgetController.request_tokens: SETNX the idempotency key;
on a lost race return the cached decision verbatim if present and a
non-approved duplicate_request_in_progress decision otherwise; on a won
race run the allocation and cache the resulting decision under the
result key. -/
def request_tokens (s : CtrlState) (purpose : String) (estimated : Int)
    (tenant project task rid now : String) : CtrlState × BudgetDecision :=
  let req_key := mkReqKey tenant task rid
  if s.locks.contains req_key then
    match alistGet s.results (req_key ++ ":result") with
    | some d => (s, d)
    | none =>
        (s, { approved := false, reason := "duplicate_request_in_progress",
              allocated_tokens := 0, request_id := some rid,
              timestamp := none })
  else
    let s1 : CtrlState := { s with locks := req_key :: s.locks }
    let pd := process_budget_request s1 purpose estimated tenant project
      task rid now
    ({ pd.1 with
        results := alistSet pd.1.results (req_key ++ ":result") pd.2 },
     pd.2)

/-- Number of reserve transaction rows carrying a given request id. -/
def reserveCount (txs : List BudgetTx) (rid : String) : Nat :=
  (txs.filter (fun t => t.type == "reserve" && t.request_id == rid)).length

theorem alistGet_cons_ne {α : Type} (p : String × α)
    (l : List (String × α)) (k : String) (hp : (p.1 == k) = false) :
    alistGet (p :: l) k = alistGet l k := by
  simp [alistGet, List.find?_cons, hp]

theorem alistSet_cons_ne {α : Type} (p : String × α)
    (l : List (String × α)) (k : String) (v : α)
    (hp : (p.1 == k) = false) :
    alistSet (p :: l) k v = p :: alistSet l k v := by
  have hp' : ¬ p.1 = k := by simpa using hp
  simp only [alistSet, List.any_cons, hp, Bool.false_or]
  cases hany : l.any (fun q => q.1 == k) with
  | true => simp [hp, hp']
  | false => simp [hp, hp']

theorem alistGet_alistSet_self {α : Type} (m : List (String × α))
    (k : String) (v : α) : alistGet (alistSet m k v) k = some v := by
  induction m with
  | nil => simp [alistSet, alistGet]
  | cons p m' ih =>
    cases hp : (p.1 == k) with
    | true =>
      have hp' : p.1 = k := by simpa using hp
      have hany : (p :: m').any (fun q => q.1 == k) = true := by
        simp [List.any_cons, hp]
      simp [alistSet, hany, alistGet, List.find?_cons, hp', hp]
    | false =>
      rw [alistSet_cons_ne p m' k v hp, alistGet_cons_ne p (alistSet m' k v) k hp]
      exact ih

theorem process_budget_request_frame (s : CtrlState) (purpose : String)
    (estimated : Int) (tenant project task rid now : String) :
    (process_budget_request s purpose estimated tenant project task
        rid now).1.locks = s.locks ∧
    (process_budget_request s purpose estimated tenant project task
        rid now).1.results = s.results := by
  simp only [process_budget_request]
  split
  · exact ⟨rfl, rfl⟩
  · split
    · exact ⟨rfl, rfl⟩
    · exact ⟨rfl, rfl⟩

theorem process_budget_request_txs (s : CtrlState) (purpose : String)
    (estimated : Int) (tenant project task rid now : String) :
    reserveCount (process_budget_request s purpose estimated tenant project
        task rid now).1.txs rid =
      reserveCount s.txs rid +
        (if (process_budget_request s purpose estimated tenant project task
            rid now).2.approved then 1 else 0) := by
  simp only [process_budget_request]
  split
  · simp
  · split
    · simp [reserveCount, List.filter_append]
    · simp

theorem request_tokens_fresh (s : CtrlState) (purpose : String)
    (estimated : Int) (tenant project task rid now : String)
    (h : s.locks.contains (mkReqKey tenant task rid) = false) :
    request_tokens s purpose estimated tenant project task rid now =
      ({ (process_budget_request
            { s with locks := mkReqKey tenant task rid :: s.locks }
            purpose estimated tenant project task rid now).1 with
          results := alistSet
            (process_budget_request
              { s with locks := mkReqKey tenant task rid :: s.locks }
              purpose estimated tenant project task rid now).1.results
            (mkReqKey tenant task rid ++ ":result")
            (process_budget_request
              { s with locks := mkReqKey tenant task rid :: s.locks }
              purpose estimated tenant project task rid now).2 },
       (process_budget_request
          { s with locks := mkReqKey tenant task rid :: s.locks }
          purpose estimated tenant project task rid now).2) := by
  have h' : ¬ (mkReqKey tenant task rid ∈ s.locks) := by simpa using h
  simp [request_tokens, h']

theorem request_tokens_replay (s : CtrlState) (purpose : String)
    (estimated : Int) (tenant project task rid now : String)
    (d : BudgetDecision)
    (h1 : s.locks.contains (mkReqKey tenant task rid) = true)
    (h2 : alistGet s.results (mkReqKey tenant task rid ++ ":result") =
      some d) :
    request_tokens s purpose estimated tenant project task rid now =
      (s, d) := by
  have h1' : mkReqKey tenant task rid ∈ s.locks := by simpa using h1
  simp [request_tokens, h1', h2]

theorem request_tokens_inprogress (s : CtrlState) (purpose : String)
    (estimated : Int) (tenant project task rid now : String)
    (h1 : s.locks.contains (mkReqKey tenant task rid) = true)
    (h2 : alistGet s.results (mkReqKey tenant task rid ++ ":result") =
      none) :
    request_tokens s purpose estimated tenant project task rid now =
      (s, { approved := false, reason := "duplicate_request_in_progress",
            allocated_tokens := 0, request_id := some rid,
            timestamp := none }) := by
  have h1' : mkReqKey tenant task rid ∈ s.locks := by simpa using h1
  simp [request_tokens, h1', h2]

/-- Claim C4: when the idempotency envelope is fresh and no reserve row
for the request id exists, a second request call with the same tenant,
task and request id returns the cached decision payload of the first
unchanged and performs no state change, so at most one reserve
transaction row carries the request id (exactly one when the first call
approved); and a caller who loses the SETNX race while no result is
cached receives the non-approved duplicate_request_in_progress decision
with no side effects. -/
theorem budget_request_idempotent (s : CtrlState) (purpose : String)
    (estimated : Int) (tenant project task rid now1 now2 : String) :
    (s.locks.contains (mkReqKey tenant task rid) = false →
      reserveCount s.txs rid = 0 →
      ∀ (s1 : CtrlState) (d1 : BudgetDecision),
        request_tokens s purpose estimated tenant project task rid now1 =
          (s1, d1) →
        request_tokens s1 purpose estimated tenant project task rid now2 =
          (s1, d1) ∧
        reserveCount s1.txs rid = (if d1.approved then 1 else 0)) ∧
    (s.locks.contains (mkReqKey tenant task rid) = true →
      alistGet s.results (mkReqKey tenant task rid ++ ":result") = none →
      request_tokens s purpose estimated tenant project task rid now1 =
        (s, { approved := false,
              reason := "duplicate_request_in_progress",
              allocated_tokens := 0, request_id := some rid,
              timestamp := none })) := by
  constructor
  · intro h1 h2 s1 d1 heq
    rw [request_tokens_fresh s purpose estimated tenant project task rid
      now1 h1, Prod.ext_iff] at heq
    obtain ⟨hs1, hd1⟩ := heq
    subst hs1
    subst hd1
    have hframe := process_budget_request_frame
      { s with locks := mkReqKey tenant task rid :: s.locks }
      purpose estimated tenant project task rid now1
    have hcontains : (({ (process_budget_request
        { s with locks := mkReqKey tenant task rid :: s.locks }
        purpose estimated tenant project task rid now1).1 with
          results := alistSet
            (process_budget_request
              { s with locks := mkReqKey tenant task rid :: s.locks }
              purpose estimated tenant project task rid now1).1.results
            (mkReqKey tenant task rid ++ ":result")
            (process_budget_request
              { s with locks := mkReqKey tenant task rid :: s.locks }
              purpose estimated tenant project task rid now1).2 } :
        CtrlState).locks).contains (mkReqKey tenant task rid) = true := by
      show ((process_budget_request
        { s with locks := mkReqKey tenant task rid :: s.locks }
        purpose estimated tenant project task rid now1).1.locks).contains
          (mkReqKey tenant task rid) = true
      rw [hframe.1]
      simp
    have hget := alistGet_alistSet_self
      (process_budget_request
        { s with locks := mkReqKey tenant task rid :: s.locks }
        purpose estimated tenant project task rid now1).1.results
      (mkReqKey tenant task rid ++ ":result")
      (process_budget_request
        { s with locks := mkReqKey tenant task rid :: s.locks }
        purpose estimated tenant project task rid now1).2
    refine ⟨?_, ?_⟩
    · exact request_tokens_replay _ purpose estimated tenant project task
        rid now2 _ hcontains hget
    · have htxs := process_budget_request_txs
        { s with locks := mkReqKey tenant task rid :: s.locks }
        purpose estimated tenant project task rid now1
      have hs : reserveCount ({ s with
          locks := mkReqKey tenant task rid :: s.locks } : CtrlState).txs
          rid = 0 := h2
      rw [hs] at htxs
      simpa using htxs
  · intro h1 h2
    exact request_tokens_inprogress s purpose estimated tenant project task
      rid now1 h1 h2

/-- Fresh controller state: default ledger, no locks, no cached results,
no transaction rows. -/
def ctrlFresh : CtrlState := { locks := [], results := [], ledger := { total_limit := 1000000, current_usage := 0, reserved := 0 }, txs := [] }

/-- Controller state whose envelope for tenant T, task K1, request r-1 is
still processing with no cached result. -/
def ctrlInProgress : CtrlState := { locks := [mkReqKey "T" "K1" "r-1"], results := [], ledger := { total_limit := 1000000, current_usage := 0, reserved := 0 }, txs := [] }

/-- Witness for the C4 theorem: a replayed request on a fresh state and a
lost race with no cached result. -/
theorem budget_request_idempotent_witness :
    (request_tokens
        (request_tokens ctrlFresh "code_generation" 10000 "T" "P" "K1"
          "r-1" "t1").1 "code_generation" 10000 "T" "P" "K1" "r-1"
        "t2" =
      ((request_tokens ctrlFresh "code_generation" 10000 "T" "P" "K1" "r-1"
        "t1").1,
       (request_tokens ctrlFresh "code_generation" 10000 "T" "P" "K1" "r-1"
        "t1").2) ∧
     reserveCount (request_tokens ctrlFresh "code_generation" 10000 "T" "P"
        "K1" "r-1" "t1").1.txs "r-1" =
      (if (request_tokens ctrlFresh "code_generation" 10000 "T" "P" "K1"
          "r-1" "t1").2.approved then 1 else 0)) ∧
    request_tokens ctrlInProgress "code_generation" 10000 "T" "P" "K1"
        "r-1" "t1" =
      (ctrlInProgress,
       { approved := false, reason := "duplicate_request_in_progress",
         allocated_tokens := 0, request_id := some "r-1",
         timestamp := none }) :=
  ⟨(budget_request_idempotent ctrlFresh "code_generation" 10000 "T" "P"
      "K1" "r-1" "t1" "t2").1 (by decide) (by decide)
      (request_tokens ctrlFresh "code_generation" 10000 "T" "P" "K1" "r-1"
        "t1").1
      (request_tokens ctrlFresh "code_generation" 10000 "T" "P" "K1" "r-1"
        "t1").2 rfl,
   (budget_request_idempotent ctrlInProgress "code_generation" 10000 "T"
      "P" "K1" "r-1" "t1" "t2").2 (by decide) (by decide)⟩

-- ===========================================================================
-- RBAC and token verification (src/api/security.py)
-- ===========================================================================

namespace Permission

def ESCALATION_VIEW : String := "escalation.view"

def ESCALATION_RESOLVE : String := "escalation.resolve"

def ESCALATION_CREATE : String := "escalation.create"

def TASK_CREATE : String := "task.create"

def TASK_UPDATE : String := "task.update"

def TASK_DELETE : String := "task.delete"

def TASK_VIEW : String := "task.view"

def AGENT_CONFIGURE : String := "agent.configure"

def AGENT_VIEW : String := "agent.view"

def BUDGET_VIEW : String := "budget.view"

def BUDGET_CONFIGURE : String := "budget.configure"

def LEARNING_APPROVE : String := "learning.approve"

def LEARNING_VIEW : String := "learning.view"

def SYSTEM_ADMIN : String := "system.admin"

def METRICS_VIEW : String := "metrics.view"

end Permission

/-- The role-to-permissions dictionary ROLE_PERMISSIONS of security.py. -/
def ROLE_PERMISSIONS : List (String × List String) :=
  [("admin",
    [Permission.SYSTEM_ADMIN, Permission.ESCALATION_VIEW,
     Permission.ESCALATION_RESOLVE, Permission.ESCALATION_CREATE,
     Permission.TASK_CREATE, Permission.TASK_UPDATE, Permission.TASK_DELETE,
     Permission.TASK_VIEW, Permission.AGENT_CONFIGURE, Permission.AGENT_VIEW,
     Permission.BUDGET_VIEW, Permission.BUDGET_CONFIGURE,
     Permission.LEARNING_APPROVE, Permission.LEARNING_VIEW,
     Permission.METRICS_VIEW]),
   ("operator",
    [Permission.ESCALATION_VIEW, Permission.ESCALATION_RESOLVE,
     Permission.TASK_CREATE, Permission.TASK_UPDATE, Permission.TASK_VIEW,
     Permission.AGENT_VIEW, Permission.BUDGET_VIEW, Permission.LEARNING_VIEW,
     Permission.METRICS_VIEW]),
   ("developer",
    [Permission.TASK_CREATE, Permission.TASK_UPDATE, Permission.TASK_VIEW,
     Permission.AGENT_VIEW, Permission.METRICS_VIEW]),
   ("observer",
    [Permission.TASK_VIEW, Permission.AGENT_VIEW, Permission.METRICS_VIEW])]

/-- Decoded JWT claim set as the code reads it: payload.get of sub, role
and permissions, each possibly absent. -/
structure TokenPayload where
  sub : Option String
  role : Option String
  permissions : Option (List String)
deriving Repr, DecidableEq

/-- RBACMiddleware.generate_token: the minted payload carries sub, role
and the permissions looked up for the role (default empty list). -/
def generate_token (user_id role : String) : TokenPayload :=
  { sub := some user_id, role := some role,
    permissions := some ((alistGet ROLE_PERMISSIONS role).getD []) }

/-- Outcome of jwt.decode inside verify_token: a decoded payload, an
ExpiredSignatureError, or an InvalidTokenError. -/
inductive DecodeOutcome where
  | payload (p : TokenPayload)
  | expired
  | invalid
deriving Repr, DecidableEq

/-- Result of RBACMiddleware.verify_token: the principal dict or an HTTP
401 error. -/
inductive VerifyResult where
  | ok (user_id : String) (role : String) (permissions : List String)
  | err (status : Nat) (detail : String)
deriving Repr, DecidableEq

/-- RBACMiddleware.verify_token: reject expired or invalid tokens, reject
a falsy sub, and otherwise return user_id, role (default observer) and
the permissions list taken from the payload (default empty). -/
def verify_token (t : DecodeOutcome) : VerifyResult :=
  match t with
  | .expired => .err 401 "Token expired"
  | .invalid => .err 401 "Invalid token"
  | .payload p =>
      if (p.sub.getD "") == "" then
        .err 401 "Invalid token: missing user_id"
      else
        .ok (p.sub.getD "") (p.role.getD "observer") (p.permissions.getD [])

/-- Claim C2, counterexample: a validly signed, unexpired payload whose
role is observer but whose permissions field carries system.admin is
verified with permissions equal to the embedded list, not to the
role-to-capability mapping entry for observer. -/
theorem verify_token_trusts_payload :
    verify_token (.payload { sub := some "mallory", role := some "observer", permissions := some [Permission.SYSTEM_ADMIN] }) =
      .ok "mallory" "observer" ["system.admin"] ∧
    ¬ (["system.admin"] = (alistGet ROLE_PERMISSIONS "observer").getD []) := by
  decide

/-- Claim C2, amended: verify_token attaches to the principal exactly the
permissions list embedded in the token payload (empty when absent); it
performs no reconstruction from the role. Only for tokens minted by
generate_token, whose payload permissions are the mapping entry for the
role, do the verified permissions coincide with ROLE_PERMISSIONS of the
role. -/
theorem verify_token_payload_permissions :
    (∀ p : TokenPayload, ((p.sub.getD "") == "") = false →
      verify_token (.payload p) =
        .ok (p.sub.getD "") (p.role.getD "observer")
          (p.permissions.getD [])) ∧
    (∀ user_id role : String, (user_id == "") = false →
      verify_token (.payload (generate_token user_id role)) =
        .ok user_id role ((alistGet ROLE_PERMISSIONS role).getD [])) := by
  constructor
  · intro p hp
    simp [verify_token, hp]
  · intro user_id role h
    simp [verify_token, generate_token, h]

/-- Witness for the amended C2 theorem: an arbitrary payload and a minted
operator token. -/
theorem verify_token_payload_permissions_witness :
    verify_token (.payload { sub := some "alice", role := some "norole", permissions := some ["x.y"] }) =
      .ok "alice" "norole" ["x.y"] ∧
    verify_token (.payload (generate_token "admin" "operator")) =
      .ok "admin" "operator" ((alistGet ROLE_PERMISSIONS "operator").getD []) :=
  ⟨verify_token_payload_permissions.1
      { sub := some "alice", role := some "norole", permissions := some ["x.y"] }
      (by decide),
   verify_token_payload_permissions.2 "admin" "operator" (by decide)⟩

-- ===========================================================================
-- Login with lockout (src/api/new_endpoints.py login)
-- ===========================================================================

/-- DEMO_USERS of new_endpoints.py: username, bcrypt password hash, role. -/
def DEMO_USERS : List (String × String × String) :=
  [("admin", ("$2b$12$9VvRP7Egf4CQWu.cK2nDfeVwzUw/hze7CFAmBvR0qFoLe6XJ0DqYS", "admin")),
   ("operator", ("$2b$12$rEo4hjoK0A8uf7ibBKaNmuAzEjJr.W4O0qKVQ4U3Fq1y3fyA9y4Oe", "operator")),
   ("developer", ("$2b$12$ZL1VFIrPyket8NL7Yp7dlu/Ss8JIJCmSnKGgj/VnWsqad7paVF3TW", "developer")),
   ("observer", ("$2b$12$g2n/iLfEenJctKL25GJYsOjcrq9Ilaa4/1ppVJgROlwf2WlcdA5iG", "observer"))]

/-- Outcome of the login handler. -/
inductive LoginResult where
  | ok (token : TokenPayload) (role : String) (permissions : List String)
  | unauthorized (detail : String)
  | rateLimited (detail : String)
deriving Repr, DecidableEq

/-- Observable effects of one login call: the HTTP result, the Redis
counters afterwards, the EXPIRE commands issued, and the (password, hash)
pairs passed to bcrypt.checkpw. -/
structure LoginOutcome where
  result : LoginResult
  counters : List (String × Nat)
  expireCalls : List (String × Nat)
  hashChecks : List (String × String)
deriving Repr, DecidableEq

/-- Character-wise lowercasing, the kernel-reducible equivalent of
str.lower for the ASCII usernames involved. -/
def strLower (s : String) : String := String.mk (s.data.map Char.toLower)

/-- ASCII whitespace test used by the strip model. -/
def isWsChar (c : Char) : Bool := c == ' ' || c == '\t' || c == '\n' || c == '\r'

/-- Leading and trailing whitespace removal, modelling str.strip. -/
def strStrip (s : String) : String :=
  String.mk (((s.data.dropWhile isWsChar).reverse.dropWhile isWsChar).reverse)

/-- request.username.strip().lower() from the login handler. -/
def normalizeUser (s : String) : String := strLower (strStrip s)

/-- The lockout counter key login:attempts:username:client_ip. -/
def lockKey (username_lower client_ip : String) : String :=
  "login:attempts:" ++ username_lower ++ ":" ++ client_ip

/-- The post-increment value the INCR at the top of login returns. -/
def postAttempts (counters : List (String × Nat))
    (username client_ip : String) : Nat :=
  (alistGet counters (lockKey (normalizeUser username) client_ip)).getD 0 + 1

/-- The login handler of new_endpoints.py: INCR the lockout counter,
EXPIRE only when the counter is fresh, 429 past the threshold before any
credential check, look up the user, verify bcrypt only when the user
exists, and on success DELETE the counter and mint a token. The checkpw
argument abstracts bcrypt.checkpw. -/
def login (checkpw : String → String → Bool)
    (users : List (String × String × String))
    (maxAttempts lockoutTtl : Nat) (counters : List (String × Nat))
    (username password client_ip : String) : LoginOutcome :=
  let username_lower := (normalizeUser username)
  let lock_key := lockKey username_lower client_ip
  let attempts := (alistGet counters lock_key).getD 0 + 1
  let counters1 := alistSet counters lock_key attempts
  let expires := if attempts == 1 then [(lock_key, lockoutTtl)] else []
  if attempts > maxAttempts then
    { result := .rateLimited ("rate_limit.exceeded: Too many login attempts. Try again in " ++ toString (lockoutTtl / 60) ++ " minutes"),
      counters := counters1, expireCalls := expires, hashChecks := [] }
  else
    match alistGet users username_lower with
    | none =>
        { result := .unauthorized "auth.invalid_credentials: Invalid credentials",
          counters := counters1, expireCalls := expires, hashChecks := [] }
    | some u =>
        if checkpw password u.1 then
          { result := .ok (generate_token username_lower u.2) u.2
              ((alistGet ROLE_PERMISSIONS u.2).getD []),
            counters := alistDel counters1 lock_key,
            expireCalls := expires,
            hashChecks := [(password, u.1)] }
        else
          { result := .unauthorized "auth.invalid_credentials: Invalid credentials",
            counters := counters1, expireCalls := expires,
            hashChecks := [(password, u.1)] }

theorem alistGet_alistDel_self {α : Type} (m : List (String × α))
    (k : String) : alistGet (alistDel m k) k = none := by
  simp only [alistGet, alistDel, Option.map_eq_none']
  rw [List.find?_eq_none]
  intro x hx
  have := (List.mem_filter.mp hx).2
  simpa using this

/-- Claim C5: a login attempt whose post-increment counter exceeds the
threshold is answered 429 with rate_limit.exceeded and the
minutes-to-reset in the message, with no password-hash check performed;
the EXPIRE on the counter is issued exactly when the counter value is 1
(first attempt); and a successful login deletes the counter. -/
theorem login_lockout (checkpw : String → String → Bool)
    (users : List (String × String × String))
    (maxAttempts lockoutTtl : Nat) (counters : List (String × Nat))
    (username password client_ip : String) :
    (postAttempts counters username client_ip > maxAttempts →
      (login checkpw users maxAttempts lockoutTtl counters username
          password client_ip).result =
        .rateLimited ("rate_limit.exceeded: Too many login attempts. Try again in " ++ toString (lockoutTtl / 60) ++ " minutes") ∧
      (login checkpw users maxAttempts lockoutTtl counters username
          password client_ip).hashChecks = []) ∧
    ((login checkpw users maxAttempts lockoutTtl counters username password
        client_ip).expireCalls =
      if postAttempts counters username client_ip == 1
      then [(lockKey (normalizeUser username) client_ip, lockoutTtl)]
      else []) ∧
    (∀ (tok : TokenPayload) (role : String) (perms : List String),
      (login checkpw users maxAttempts lockoutTtl counters username
          password client_ip).result = .ok tok role perms →
      alistGet (login checkpw users maxAttempts lockoutTtl counters
          username password client_ip).counters
        (lockKey (normalizeUser username) client_ip) = none) := by
  refine ⟨?_, ?_, ?_⟩
  · intro hn
    unfold postAttempts at hn
    simp [login, hn]
  · simp only [login, postAttempts]
    split
    · rfl
    · split
      · rfl
      · split <;> rfl
  · intro tok role perms h
    by_cases hattempts : (alistGet counters
        (lockKey (normalizeUser username) client_ip)).getD 0 + 1 > maxAttempts
    · simp [login, hattempts] at h
    · rcases hu : alistGet users (normalizeUser username) with _ | u
      · simp [login, hattempts, hu] at h
      · by_cases hpw : checkpw password u.1
        · simp [login, hattempts, hu, hpw, alistGet_alistDel_self]
        · simp [login, hattempts, hu, hpw] at h

/-- Witness for the C5 theorem: the sixth attempt for admin from
1.2.3.4 with threshold 5 and a 900 second window is rate limited with a
15 minutes message and no hash check, the EXPIRE rule at that state, and
a successful first login deleting the counter. -/
theorem login_lockout_witness :
    ((login (fun _ _ => false) DEMO_USERS 5 900
        [(lockKey "admin" "1.2.3.4", 5)] "admin" "whatever"
        "1.2.3.4").result =
      .rateLimited ("rate_limit.exceeded: Too many login attempts. Try again in " ++ toString (900 / 60 : Nat) ++ " minutes") ∧
     (login (fun _ _ => false) DEMO_USERS 5 900
        [(lockKey "admin" "1.2.3.4", 5)] "admin" "whatever"
        "1.2.3.4").hashChecks = []) ∧
    ((login (fun _ _ => false) DEMO_USERS 5 900
        [(lockKey "admin" "1.2.3.4", 5)] "admin" "whatever"
        "1.2.3.4").expireCalls =
      if postAttempts [(lockKey "admin" "1.2.3.4", 5)] "admin" "1.2.3.4" == 1
      then [(lockKey (normalizeUser "admin") "1.2.3.4", 900)]
      else []) ∧
    alistGet (login (fun _ _ => true) DEMO_USERS 5 900 [] "admin"
        "admin123" "1.2.3.4").counters
      (lockKey (normalizeUser "admin") "1.2.3.4") = none :=
  ⟨(login_lockout (fun _ _ => false) DEMO_USERS 5 900
      [(lockKey "admin" "1.2.3.4", 5)] "admin" "whatever" "1.2.3.4").1
      (by decide),
   (login_lockout (fun _ _ => false) DEMO_USERS 5 900
      [(lockKey "admin" "1.2.3.4", 5)] "admin" "whatever" "1.2.3.4").2.1,
   (login_lockout (fun _ _ => true) DEMO_USERS 5 900 [] "admin" "admin123"
      "1.2.3.4").2.2 (generate_token "admin" "admin") "admin"
      ((alistGet ROLE_PERMISSIONS "admin").getD []) (by decide)⟩

/-- Claim C6, counterexample: with the shipped user table, a login for the
unknown user ghost performs zero bcrypt checks while a wrong-password
login for admin performs one, so the user-not-found branch and the
wrong-password branch do not perform the same hash-verification work and
no fixed dummy hash is ever compared. -/
theorem login_no_dummy_hash :
    (login (fun _ _ => false) DEMO_USERS 5 900 [] "ghost" "pw"
        "1.2.3.4").hashChecks.length = 0 ∧
    (login (fun _ _ => false) DEMO_USERS 5 900 [] "admin" "wrongpw"
        "1.2.3.4").hashChecks.length = 1 ∧
    (0 : Nat) ≠ 1 := by
  decide

/-- Claim C6, amended: on a login attempt that is not rate limited, when
the user record is absent the handler returns invalid-credentials
directly and runs no password-hash comparison at all; only the
wrong-password branch performs a bcrypt check, so the two failure
branches do different hash-verification work. -/
theorem login_user_missing_skips_hash (checkpw : String → String → Bool)
    (users : List (String × String × String))
    (maxAttempts lockoutTtl : Nat) (counters : List (String × Nat))
    (username password client_ip : String) :
    postAttempts counters username client_ip ≤ maxAttempts →
    alistGet users (normalizeUser username) = none →
    (login checkpw users maxAttempts lockoutTtl counters username password
        client_ip).result =
      .unauthorized "auth.invalid_credentials: Invalid credentials" ∧
    (login checkpw users maxAttempts lockoutTtl counters username password
        client_ip).hashChecks = [] := by
  intro h1 h2
  have h1' : ¬ ((alistGet counters
      (lockKey (normalizeUser username) client_ip)).getD 0 + 1 > maxAttempts) := by
    unfold postAttempts at h1
    omega
  simp [login, h1', h2]

/-- Witness for the amended C6 theorem at the unknown user ghost. -/
theorem login_user_missing_skips_hash_witness :
    (login (fun _ _ => false) DEMO_USERS 5 900 [] "ghost" "pw"
        "1.2.3.4").result =
      .unauthorized "auth.invalid_credentials: Invalid credentials" ∧
    (login (fun _ _ => false) DEMO_USERS 5 900 [] "ghost" "pw"
        "1.2.3.4").hashChecks = [] :=
  login_user_missing_skips_hash (fun _ _ => false) DEMO_USERS 5 900 []
    "ghost" "pw" "1.2.3.4" (by decide) (by decide)

-- ===========================================================================
-- Circuit breaker (src/common/circuit_breaker.py)
-- ===========================================================================

/-- CircuitState enum; OPEN is spelled opened because open is reserved. -/
inductive CircuitState where
  | closed
  | opened
  | halfOpen
deriving Repr, DecidableEq

/-- CircuitBreaker instance state: configuration and mutable fields, with
times as integers standing for time.time(). -/
structure CircuitBreaker where
  failure_threshold : Nat
  recovery_timeout : Int
  half_open_max_calls : Nat
  state : CircuitState
  failure_count : Nat
  success_count : Nat
  last_failure_time : Option Int
  opened_at : Option Int
  half_open_calls : Nat
  total_calls : Nat
  total_failures : Nat
  total_successes : Nat
deriving Repr, DecidableEq

/-- CircuitBreaker.__init__ with the given configuration. -/
def initBreaker (failure_threshold : Nat) (recovery_timeout : Int)
    (half_open_max_calls : Nat) : CircuitBreaker :=
  { failure_threshold := failure_threshold,
    recovery_timeout := recovery_timeout,
    half_open_max_calls := half_open_max_calls,
    state := .closed, failure_count := 0, success_count := 0,
    last_failure_time := none, opened_at := none, half_open_calls := 0,
    total_calls := 0, total_failures := 0, total_successes := 0 }

/-- CircuitBreaker._should_attempt_reset at the given current time. -/
def should_attempt_reset (b : CircuitBreaker) (now : Int) : Bool :=
  match b.last_failure_time with
  | none => true
  | some t => now - t ≥ b.recovery_timeout

/-- The admission section of CircuitBreaker.call, run under the lock:
count the call, move a ripe OPEN breaker to HALF_OPEN, reject when OPEN
or when HALF_OPEN is at its probe limit, otherwise admit. The Bool is
true when the wrapped function will be executed. -/
def admission (b : CircuitBreaker) (now : Int) : CircuitBreaker × Bool :=
  let b0 := { b with total_calls := b.total_calls + 1 }
  match b0.state with
  | .closed => (b0, true)
  | .opened =>
      if should_attempt_reset b0 now then
        let b1 := { b0 with state := CircuitState.halfOpen,
                            half_open_calls := 0 }
        if b1.half_open_calls ≥ b1.half_open_max_calls then (b1, false)
        else ({ b1 with half_open_calls := b1.half_open_calls + 1 }, true)
      else (b0, false)
  | .halfOpen =>
      if b0.half_open_calls ≥ b0.half_open_max_calls then (b0, false)
      else ({ b0 with half_open_calls := b0.half_open_calls + 1 }, true)

/-- CircuitBreaker._on_success. -/
def on_success (b : CircuitBreaker) : CircuitBreaker :=
  let b0 := { b with total_successes := b.total_successes + 1,
                     success_count := b.success_count + 1 }
  match b0.state with
  | .halfOpen =>
      { b0 with state := .closed, failure_count := 0, success_count := 0,
                last_failure_time := none, opened_at := none,
                half_open_calls := 0 }
  | .closed =>
      if b0.failure_count > 0 then { b0 with failure_count := 0 } else b0
  | .opened => b0

/-- CircuitBreaker._on_failure at the given current time. -/
def on_failure (b : CircuitBreaker) (now : Int) : CircuitBreaker :=
  let b0 := { b with total_failures := b.total_failures + 1,
                     failure_count := b.failure_count + 1,
                     last_failure_time := some now }
  match b0.state with
  | .halfOpen => { b0 with state := .opened, opened_at := some now }
  | .closed =>
      if b0.failure_count ≥ b0.failure_threshold then
        { b0 with state := .opened, opened_at := some now }
      else b0
  | .opened => b0

/-- One full CircuitBreaker.call at time ev.1 whose wrapped function, if
admitted, succeeds when ev.2 is true and raises otherwise. -/
def breakerStep (b : CircuitBreaker) (ev : Int × Bool) : CircuitBreaker :=
  let ad := admission b ev.1
  if ad.2 then
    if ev.2 then on_success ad.1 else on_failure ad.1 ev.1
  else ad.1

/-- A sequence of calls against one breaker. -/
def breakerRun (b : CircuitBreaker) (evs : List (Int × Bool)) :
    CircuitBreaker :=
  evs.foldl breakerStep b

/-- Claim C7, counterexample: with failure_threshold 1 and
recovery_timeout 0, one failure trips the breaker to OPEN with
failure_count 1; the next call enters HALF_OPEN (which does not reset
failure_count) and its failure raises the count to 2, exceeding the
threshold, so failure_count does not stay at or below
failure_threshold over all sequences. -/
theorem breaker_count_exceeds_threshold :
    (breakerRun (initBreaker 1 0 3) [(0, false), (1, false)]).failure_count
      = 2 ∧
    (breakerRun (initBreaker 1 0 3)
      [(0, false), (1, false)]).failure_threshold = 1 ∧
    ¬ ((breakerRun (initBreaker 1 0 3)
        [(0, false), (1, false)]).failure_count ≤ 1) := by
  decide

theorem admission_preserves (θ : Nat) (b : CircuitBreaker) (now : Int)
    (hθ : b.failure_threshold = θ)
    (hinv : b.state = .closed → b.failure_count < θ) :
    (admission b now).1.failure_threshold = θ ∧
    ((admission b now).1.state = .closed →
      (admission b now).1.failure_count < θ) := by
  cases hb : b.state with
  | closed =>
      simp only [admission, hb]
      exact ⟨hθ, fun _ => hinv hb⟩
  | halfOpen =>
      simp only [admission, hb]
      split
      · exact ⟨hθ, by simp⟩
      · exact ⟨hθ, by simp⟩
  | opened =>
      simp only [admission, hb]
      split
      · split
        · exact ⟨hθ, by simp⟩
        · exact ⟨hθ, by simp⟩
      · exact ⟨hθ, by simp⟩

theorem on_success_preserves (θ : Nat) (b : CircuitBreaker)
    (hθ : b.failure_threshold = θ) (hone : 1 ≤ θ) :
    (on_success b).failure_threshold = θ ∧
    ((on_success b).state = .closed → (on_success b).failure_count < θ) := by
  cases hb : b.state with
  | closed =>
      simp only [on_success, hb]
      split
      · exact ⟨hθ, fun _ => hone⟩
      · rename_i hc
        refine ⟨hθ, fun _ => ?_⟩
        dsimp only at hc ⊢
        omega
  | halfOpen =>
      simp only [on_success, hb]
      exact ⟨hθ, fun _ => hone⟩
  | opened =>
      simp only [on_success, hb]
      exact ⟨hθ, by simp⟩

theorem on_failure_preserves (θ : Nat) (b : CircuitBreaker) (now : Int)
    (hθ : b.failure_threshold = θ) :
    (on_failure b now).failure_threshold = θ ∧
    ((on_failure b now).state = .closed →
      (on_failure b now).failure_count < θ) := by
  cases hb : b.state with
  | closed =>
      simp only [on_failure, hb]
      split
      · exact ⟨hθ, by simp⟩
      · rename_i hlt
        refine ⟨hθ, fun _ => ?_⟩
        dsimp only at hlt ⊢
        omega
  | halfOpen =>
      simp only [on_failure, hb]
      exact ⟨hθ, by simp⟩
  | opened =>
      simp only [on_failure, hb]
      exact ⟨hθ, by simp⟩

theorem breakerStep_preserves (θ : Nat) (hone : 1 ≤ θ)
    (b : CircuitBreaker) (ev : Int × Bool)
    (hθ : b.failure_threshold = θ)
    (hinv : b.state = .closed → b.failure_count < θ) :
    (breakerStep b ev).failure_threshold = θ ∧
    ((breakerStep b ev).state = .closed →
      (breakerStep b ev).failure_count < θ) := by
  have had := admission_preserves θ b ev.1 hθ hinv
  unfold breakerStep
  cases hb : (admission b ev.1).2 with
  | false => simpa [hb] using had
  | true =>
      cases hok : ev.2 with
      | true =>
          simpa [hb, hok] using on_success_preserves θ (admission b ev.1).1
            had.1 hone
      | false =>
          simpa [hb, hok] using on_failure_preserves θ (admission b ev.1).1
            ev.1 had.1

theorem admission_rejects_open (b : CircuitBreaker) (t tlast : Int)
    (hst : b.state = .opened)
    (hlf : b.last_failure_time = some tlast)
    (hwait : t - tlast < b.recovery_timeout) :
    (admission b t).2 = false ∧ (admission b t).1.state = .opened := by
  obtain ⟨θf, rt, hm, st, fc, sc, lft, oa, hoc, tc, tf, ts⟩ := b
  dsimp only at hst hlf hwait
  subst hst
  subst hlf
  have hlt : ¬ (t - tlast ≥ rt) := by omega
  simp [admission, should_attempt_reset, hlt]

theorem on_failure_trips (b : CircuitBreaker) (now : Int)
    (hclosed : b.state = .closed)
    (htrip : b.failure_threshold ≤ b.failure_count + 1) :
    (on_failure b now).state = .opened ∧
    (on_failure b now).last_failure_time = some now ∧
    (on_failure b now).recovery_timeout = b.recovery_timeout := by
  obtain ⟨θf, rt, hm, st, fc, sc, lft, oa, hoc, tc, tf, ts⟩ := b
  dsimp only at hclosed htrip
  subst hclosed
  simp only [on_failure]
  rw [if_pos htrip]
  exact ⟨rfl, rfl, rfl⟩

theorem breakerRun_preserves (θ : Nat) (hone : 1 ≤ θ)
    (b : CircuitBreaker) (evs : List (Int × Bool))
    (hθ : b.failure_threshold = θ)
    (hinv : b.state = .closed → b.failure_count < θ) :
    (breakerRun b evs).failure_threshold = θ ∧
    ((breakerRun b evs).state = .closed →
      (breakerRun b evs).failure_count < θ) := by
  induction evs generalizing b with
  | nil => exact ⟨hθ, hinv⟩
  | cons ev rest ih =>
      have h := breakerStep_preserves θ hone b ev hθ hinv
      exact ih (breakerStep b ev) h.1 h.2

/-- Claim C7, amended: the monotonicity bound is scoped to the Closed
state, as in the spec heading: for every call sequence, whenever the
breaker is Closed its failure_count is strictly below failure_threshold
(the count can exceed the threshold in OPEN or HALF_OPEN, as the
counterexample shows, because entering HALF_OPEN does not reset it); and
the Closed-to-Open trip is atomic with respect to further admissions: the
failure that reaches the threshold leaves the breaker OPEN within the
same locked bookkeeping, and any call before the recovery timeout is
rejected without executing. -/
theorem breaker_closed_monotonicity (θ : Nat)
    (recovery_timeout : Int) (half_open_max_calls : Nat)
    (evs : List (Int × Bool)) (b : CircuitBreaker) (now t : Int) :
    (1 ≤ θ →
      (breakerRun (initBreaker θ recovery_timeout half_open_max_calls)
          evs).state = .closed →
      (breakerRun (initBreaker θ recovery_timeout half_open_max_calls)
          evs).failure_count < θ) ∧
    (b.state = .closed → b.failure_threshold ≤ b.failure_count + 1 →
      (on_failure b now).state = .opened ∧
      (t - now < b.recovery_timeout →
        (admission (on_failure b now) t).2 = false ∧
        (admission (on_failure b now) t).1.state = .opened)) := by
  constructor
  · intro hone
    exact (breakerRun_preserves θ hone
      (initBreaker θ recovery_timeout half_open_max_calls) evs rfl
      (fun _ => by simpa [initBreaker] using hone)).2
  · intro hclosed htrip
    have hopen := on_failure_trips b now hclosed htrip
    refine ⟨hopen.1, fun hwait => ?_⟩
    exact admission_rejects_open (on_failure b now) t now hopen.1
      hopen.2.1 (by rw [hopen.2.2]; exact hwait)

/-- Witness for the amended C7 theorem: a failure then a success keep a
threshold-3 breaker Closed with count 0 below 3, and a Closed breaker at
count 2 of 3 trips to OPEN on the next failure and rejects a call made
before the recovery timeout. -/
theorem breaker_closed_monotonicity_witness :
    (breakerRun (initBreaker 3 2 3) [(0, false), (5, true)]).failure_count
      < 3 ∧
    (on_failure { initBreaker 3 2 3 with failure_count := 2 }
        10).state = .opened ∧
    ((admission (on_failure { initBreaker 3 2 3 with failure_count := 2 }
        10) 11).2 = false ∧
     (admission (on_failure { initBreaker 3 2 3 with failure_count := 2 }
        10) 11).1.state = .opened) :=
  ⟨(breaker_closed_monotonicity 3 2 3 [(0, false), (5, true)]
      (initBreaker 3 2 3) 0 0).1 (by decide) (by decide),
   ((breaker_closed_monotonicity 3 2 3 []
      { initBreaker 3 2 3 with failure_count := 2 } 10 11).2 (by decide)
      (by decide)).1,
   ((breaker_closed_monotonicity 3 2 3 []
      { initBreaker 3 2 3 with failure_count := 2 } 10 11).2 (by decide)
      (by decide)).2 (by decide)⟩

-- ===========================================================================
-- SafePublisher with DLQ routing (src/messaging/jetstream_setup.py)
-- ===========================================================================

/-- Outcome of the JetStream publish attempt inside SafePublisher.publish:
an ack sequence, an asyncio.TimeoutError, or another exception with its
string form. -/
inductive PublishOutcome where
  | ok (seq : Nat)
  | timeout
  | failed (msg : String)
deriving Repr, DecidableEq

/-- A publish performed on the bus: jsPublish is the durable JetStream
publish, ncPublish the plain (non-durable) NATS publish. -/
inductive NatsAction where
  | jsPublish (subject : String) (data : String)
      (headers : List (String × String))
  | ncPublish (subject : String) (data : String)
      (headers : List (String × String))
deriving Repr, DecidableEq

/-- The error SafePublisher.publish re-raises. -/
inductive PubError where
  | timeoutError
  | appError (msg : String)
deriving Repr, DecidableEq

/-- SafePublisher._route_to_dlq: copy the headers (empty when None), set
original_subject, error and dlq_timestamp, and publish to
dlq.original_subject over plain NATS. -/
def route_to_dlq (original_subject data : String)
    (headers : Option (List (String × String))) (error now : String) :
    NatsAction :=
  .ncPublish ("dlq." ++ original_subject) data
    (alistSet (alistSet (alistSet (headers.getD []) "original_subject"
      original_subject) "error" error) "dlq_timestamp" now)

/-- SafePublisher.publish: attempt the JetStream publish; on timeout or
failure route the payload to the DLQ and re-raise the original error.
The actions list records the bus operations in order; now is the
datetime.utcnow().isoformat() string. -/
def publish (subject data : String)
    (headers : Option (List (String × String))) (now : String)
    (outcome : PublishOutcome) : List NatsAction × Except PubError Nat :=
  match outcome with
  | .ok seq => ([.jsPublish subject data (headers.getD [])], .ok seq)
  | .timeout =>
      ([.jsPublish subject data (headers.getD []),
        route_to_dlq subject data headers "timeout" now],
       .error .timeoutError)
  | .failed msg =>
      ([.jsPublish subject data (headers.getD []),
        route_to_dlq subject data headers msg now],
       .error (.appError msg))

/-- Claim C8: when the durable publish times out or fails, publish sends
the same payload to subject dlq.subject over the non-durable transport
with the original headers augmented by original_subject, error and
dlq_timestamp, and re-raises the original error; a successful publish
touches no DLQ. -/
theorem safe_publisher_dlq (subject data : String)
    (headers : Option (List (String × String))) (now : String) :
    (publish subject data headers now .timeout =
      ([.jsPublish subject data (headers.getD []),
        .ncPublish ("dlq." ++ subject) data
          (alistSet (alistSet (alistSet (headers.getD [])
            "original_subject" subject) "error" "timeout")
            "dlq_timestamp" now)],
       .error .timeoutError)) ∧
    (∀ msg : String, publish subject data headers now (.failed msg) =
      ([.jsPublish subject data (headers.getD []),
        .ncPublish ("dlq." ++ subject) data
          (alistSet (alistSet (alistSet (headers.getD [])
            "original_subject" subject) "error" msg)
            "dlq_timestamp" now)],
       .error (.appError msg))) ∧
    (∀ seq : Nat, publish subject data headers now (.ok seq) =
      ([.jsPublish subject data (headers.getD [])], .ok seq)) :=
  ⟨rfl, fun _ => rfl, fun _ => rfl⟩

-- ===========================================================================
-- Migration runner (src/scripts/migrate.py)
-- ===========================================================================

/-- One SQL migration file. -/
structure MigrationFile where
  name : String
  content : String
deriving Repr, DecidableEq

/-- extract_version: the part of the filename before the first underscore. -/
def extract_version (filename : String) : String :=
  String.mk (filename.data.takeWhile (fun c => !(c == '_')))

/-- Accumulated state of the migration loop in run_migrations: the
success, skipped and failed counters, the rows inserted into
schema_migrations, and whether the loop has hit break. -/
structure MigLoopState where
  success : Nat
  skipped : Nat
  failed : Nat
  inserted : List (String × String)
  stopped : Bool
deriving Repr, DecidableEq

/-- Counters before the first file. -/
def migInit : MigLoopState :=
  { success := 0, skipped := 0, failed := 0, inserted := [],
    stopped := false }

/-- One iteration of the migration loop: skip an already-applied file
with matching checksum, stop on a checksum mismatch, otherwise apply the
file (abstracted by applyOk) and insert its schema_migrations row, or
stop on an execution error. checksum abstracts SHA-256 of the content;
applied is the dict fetched from schema_migrations before the loop. -/
def migStep (checksum : String → String) (applyOk : String → Bool)
    (applied : List (String × String)) (st : MigLoopState)
    (f : MigrationFile) : MigLoopState :=
  if st.stopped then st
  else
    match alistGet applied (extract_version f.name) with
    | some stored =>
        if stored == checksum f.content then
          { st with skipped := st.skipped + 1, success := st.success + 1 }
        else
          { st with failed := st.failed + 1, stopped := true }
    | none =>
        if applyOk f.content then
          { st with success := st.success + 1,
                    inserted := st.inserted ++
                      [(extract_version f.name, checksum f.content)] }
        else
          { st with failed := st.failed + 1, stopped := true }

/-- run_migrations over the sorted file list: fold the loop and return
the final counters together with the exit code (0 when nothing failed,
1 otherwise). -/
def run_migrations (checksum : String → String) (applyOk : String → Bool)
    (applied : List (String × String)) (files : List MigrationFile) :
    MigLoopState × Nat :=
  let final := files.foldl (migStep checksum applyOk applied) migInit
  (final, if final.failed = 0 then 0 else 1)

theorem migStep_stopped (checksum : String → String)
    (applyOk : String → Bool) (applied : List (String × String))
    (st : MigLoopState) (f : MigrationFile) (h : st.stopped = true) :
    migStep checksum applyOk applied st f = st := by
  simp [migStep, h]

theorem migFold_stopped (checksum : String → String)
    (applyOk : String → Bool) (applied : List (String × String))
    (st : MigLoopState) (files : List MigrationFile)
    (h : st.stopped = true) :
    files.foldl (migStep checksum applyOk applied) st = st := by
  induction files with
  | nil => rfl
  | cons f rest ih =>
      simp only [List.foldl_cons,
        migStep_stopped checksum applyOk applied st f h]
      exact ih

theorem migStep_stop_failed (checksum : String → String)
    (applyOk : String → Bool) (applied : List (String × String))
    (st : MigLoopState) (f : MigrationFile)
    (h : st.stopped = true → 1 ≤ st.failed) :
    (migStep checksum applyOk applied st f).stopped = true →
      1 ≤ (migStep checksum applyOk applied st f).failed := by
  cases hst : st.stopped with
  | true => rw [migStep_stopped checksum applyOk applied st f hst]; exact h
  | false =>
      simp only [migStep, hst, Bool.false_eq_true, if_false]
      split
      · split
        · intro hs
          simp [hst] at hs
        · intro _
          dsimp only
          omega
      · split
        · intro hs
          simp [hst] at hs
        · intro _
          dsimp only
          omega

theorem migFold_stop_failed (checksum : String → String)
    (applyOk : String → Bool) (applied : List (String × String))
    (st : MigLoopState) (files : List MigrationFile)
    (h : st.stopped = true → 1 ≤ st.failed) :
    (files.foldl (migStep checksum applyOk applied) st).stopped = true →
      1 ≤ (files.foldl (migStep checksum applyOk applied) st).failed := by
  induction files generalizing st with
  | nil => exact h
  | cons f rest ih =>
      simp only [List.foldl_cons]
      exact ih (migStep checksum applyOk applied st f)
        (migStep_stop_failed checksum applyOk applied st f h)

theorem migStep_mismatch (checksum : String → String)
    (applyOk : String → Bool) (applied : List (String × String))
    (st : MigLoopState) (f : MigrationFile) (stored : String)
    (h0 : st.stopped = false)
    (hv : alistGet applied (extract_version f.name) = some stored)
    (hmm : (stored == checksum f.content) = false) :
    migStep checksum applyOk applied st f =
      { st with failed := st.failed + 1, stopped := true } := by
  simp [migStep, h0, hv, hmm]

/-- Claim C9: when a migration file version is already recorded in
schema_migrations with a different checksum, the runner stops at that
file: the exit code is 1 (non-zero) and the schema_migrations rows
inserted are exactly those of the files before it; the mismatching file
and everything after it insert nothing. -/
theorem migration_checksum_halts (checksum : String → String)
    (applyOk : String → Bool) (applied : List (String × String))
    (pre post : List MigrationFile) (f : MigrationFile) (stored : String)
    (hv : alistGet applied (extract_version f.name) = some stored)
    (hmm : (stored == checksum f.content) = false) :
    (run_migrations checksum applyOk applied (pre ++ f :: post)).2 = 1 ∧
    (run_migrations checksum applyOk applied
        (pre ++ f :: post)).1.inserted =
      (run_migrations checksum applyOk applied pre).1.inserted := by
  simp only [run_migrations, List.foldl_append, List.foldl_cons]
  cases hstop : (pre.foldl (migStep checksum applyOk applied)
      migInit).stopped with
  | true =>
      rw [migStep_stopped checksum applyOk applied _ f hstop,
        migFold_stopped checksum applyOk applied _ post hstop]
      have hfail : 1 ≤ (pre.foldl (migStep checksum applyOk applied)
          migInit).failed :=
        migFold_stop_failed checksum applyOk applied migInit pre
          (by intro hc; simp [migInit] at hc) hstop
      refine ⟨?_, rfl⟩
      rw [if_neg (by omega)]
  | false =>
      rw [migStep_mismatch checksum applyOk applied _ f stored hstop hv hmm,
        migFold_stopped checksum applyOk applied _ post rfl]
      refine ⟨?_, rfl⟩
      rw [if_neg (by simp)]

/-- A pending migration applied before the mismatch. -/
def migFile0 : MigrationFile := { name := "000_init.sql", content := "CREATE TABLE t0 (id INT)" }

/-- The recorded migration whose file content has changed. -/
def migFile1 : MigrationFile := { name := "001_users.sql", content := "CREATE TABLE users_v2 (id INT)" }

/-- A later pending migration that must not run. -/
def migFile2 : MigrationFile := { name := "002_more.sql", content := "CREATE TABLE more (id INT)" }

/-- Witness for the C9 theorem: version 001 is recorded with checksum
OLDSUM, the file now hashes differently (the identity stands in for
SHA-256), so the run exits 1 and only the 000 row is inserted. -/
theorem migration_checksum_halts_witness :
    (run_migrations (fun s => s) (fun _ => true) [("001", "OLDSUM")]
        [migFile0, migFile1, migFile2]).2 = 1 ∧
    (run_migrations (fun s => s) (fun _ => true) [("001", "OLDSUM")]
        [migFile0, migFile1, migFile2]).1.inserted =
      (run_migrations (fun s => s) (fun _ => true) [("001", "OLDSUM")]
        [migFile0]).1.inserted :=
  migration_checksum_halts (fun s => s) (fun _ => true) [("001", "OLDSUM")]
    [migFile0] [migFile2] migFile1 "OLDSUM" (by decide) (by decide)

-- ===========================================================================
-- DLQ resolve endpoint (src/api/new_endpoints.py resolve_dlq_message)
-- ===========================================================================

/-- Row of the dlq_messages table (DLQ_SCHEMA in jetstream_setup.py),
restricted to the columns the resolve endpoint touches or reads. -/
structure DlqRow where
  id : String
  original_subject : String
  data : String
  error_count : Nat
  resolved : Bool
  resolved_at : Option Int
  resolution_notes : Option String
deriving Repr, DecidableEq

/-- HTTP response of a DLQ endpoint: a JSON body or an HTTPException. -/
inductive ResolveResponse where
  | ok (status : String) (message_id : String) (requeued : Bool)
  | httpError (code : Nat) (detail : String)
deriving Repr, DecidableEq

/-- The updated row the unconditional UPDATE produces for a matching id. -/
def resolveRow (r : DlqRow) (note : String) (now : Int) : DlqRow :=
  { r with resolved := true, resolved_at := some now,
           resolution_notes := some note }

/-- resolve_dlq_message: run the UPDATE (affecting every row whose id
matches, zero or more) and return 200 with status resolved; now stands
for NOW() and requeue is echoed back without any requeue action. -/
def resolve_dlq_message (db : List DlqRow) (message_id note : String)
    (requeue : Bool) (now : Int) : List DlqRow × ResolveResponse :=
  (db.map (fun r =>
      if r.id == message_id then resolveRow r note now else r),
   .ok "resolved" message_id requeue)

theorem resolve_map_id (db : List DlqRow) (message_id note : String)
    (now : Int) (h : ∀ r ∈ db, (r.id == message_id) = false) :
    db.map (fun r =>
      if r.id == message_id then resolveRow r note now else r) = db := by
  induction db with
  | nil => rfl
  | cons p l ih =>
      have hp := h p (List.mem_cons_self p l)
      simp only [List.map_cons, hp, Bool.false_eq_true, if_false]
      rw [ih (fun q hq => h q (List.mem_cons_of_mem p hq))]

/-- Claim C10: the resolve endpoint always answers 200 with status
resolved and the echoed message id and requeue flag — also for an id with
no stored row (the database is then unchanged) — and for every matching
row, already resolved or not, it overwrites resolved_at with NOW() and
resolution_notes with the submitted note; no not-found or
already-resolved error exists. -/
theorem dlq_resolve_unconditional (db : List DlqRow)
    (message_id note : String) (requeue : Bool) (now : Int) :
    (resolve_dlq_message db message_id note requeue now).2 =
      .ok "resolved" message_id requeue ∧
    ((∀ r ∈ db, (r.id == message_id) = false) →
      (resolve_dlq_message db message_id note requeue now).1 = db) ∧
    (∀ r ∈ db, (r.id == message_id) = true →
      resolveRow r note now ∈
        (resolve_dlq_message db message_id note requeue now).1 ∧
      (resolveRow r note now).resolved_at = some now ∧
      (resolveRow r note now).resolution_notes = some note) := by
  refine ⟨rfl, ?_, ?_⟩
  · intro h
    simp only [resolve_dlq_message]
    exact resolve_map_id db message_id note now h
  · intro r hr hid
    refine ⟨?_, rfl, rfl⟩
    simp only [resolve_dlq_message]
    have := List.mem_map_of_mem
      (fun r => if r.id == message_id then resolveRow r note now else r) hr
    simpa [hid] using this

/-- An already resolved DLQ row with id 7. -/
def dlqRowOld : DlqRow := { id := "7", original_subject := "prc.s1.response", data := "payload", error_count := 5, resolved := true, resolved_at := some 100, resolution_notes := some "old note" }

/-- Witness for the C10 theorem: resolving an id with no stored row
returns 200 resolved and changes nothing, and re-resolving an already
resolved row overwrites resolved_at and resolution_notes. -/
theorem dlq_resolve_unconditional_witness :
    (resolve_dlq_message [] "missing" "note" false 200).2 =
      .ok "resolved" "missing" false ∧
    (resolve_dlq_message [] "missing" "note" false 200).1 = [] ∧
    (resolveRow dlqRowOld "triaged" 200 ∈
      (resolve_dlq_message [dlqRowOld] "7" "triaged" true 200).1 ∧
     (resolveRow dlqRowOld "triaged" 200).resolved_at = some 200 ∧
     (resolveRow dlqRowOld "triaged" 200).resolution_notes =
       some "triaged") :=
  ⟨(dlq_resolve_unconditional [] "missing" "note" false 200).1,
   (dlq_resolve_unconditional [] "missing" "note" false 200).2.1
     (by intro r hr; cases hr),
   (dlq_resolve_unconditional [dlqRowOld] "7" "triaged" true 200).2.2
     dlqRowOld (List.mem_cons_self dlqRowOld []) (by decide)⟩

end ControlPlane
